import Mathlib

/-!
# Verification of the MSSP-Tools OAuth / rate-limit / retry core

Shallow embedding, in Lean 4, of the state and failure-handling logic of the
FortiFlex and FortiZTP client libraries:

* `RateLimiter.wait_if_needed` (fortiflex_client.py, lines 514-540),
* token lifecycle of `FortiZTPClient` (`_is_token_expired`, `get_token`,
  `refresh_token`, `_authenticate`, `_request` in fortiztp/client.py),
* `retry_with_backoff` (fortiflex_client.py, lines 587-627),
* `FortiFlexClient._make_request` error wrapping (fortiflex_client.py 75-94),
* `FortiFlexClient.create_config` payload building and the response parsing
  done by the example scripts,
* `FortiFlexMSSP.get_token` (fortiflex_mssp.py 251-290),
* `ScriptManager.create` (fortiztp/scripts.py 171-301),
* `DeviceManager.provision` (fortiztp/devices.py 146-243).

Timestamps are modelled as rationals (the Python code uses `time.time()`
floats); HTTP traffic is modelled by passing in, as explicit data, the
response each physical request would receive, so every function here is a
pure function of its inputs and the proofs quantify over all response
sequences.
-/

namespace Fortinet

/-! ## Rate limiter (fortiflex_client.py, class RateLimiter) -/

/-- State of the rate limiter: the two recorded timestamp windows
(`minute_calls` and `hour_calls` in the source). -/
structure RLState where
  minuteCalls : List ℚ
  hourCalls : List ℚ
deriving DecidableEq, Repr

/-- Embedding of `RateLimiter.wait_if_needed` from fortiflex_client.py
(lines 514-540).  `now` is the value of `time.time()` on entry.  The result
is the instant at which the call is permitted through (entry time plus any
sleeps performed) together with the new state.  Mirrors the source exactly:
old entries are filtered with a strict `t > now - window` comparison, a sleep
of `window - (now - window_calls[0])` is taken when a window is at capacity,
and the *pre-sleep* timestamp `now` is appended to both windows (this file
of the source, unlike fortiflex_mssp.py, does not refresh `now` after the
sleep).  `headD 0` stands for `minute_calls[0]`; it is only reached when the
capacity check guarantees the list is nonempty (any positive limit). -/
def waitIfNeeded (maxPerMinute maxPerHour : ℕ) (st : RLState) (now : ℚ) :
    ℚ × RLState :=
  let minuteCalls := st.minuteCalls.filter (fun t => decide (now - 60 < t))
  let hourCalls := st.hourCalls.filter (fun t => decide (now - 3600 < t))
  let sleep1 : ℚ :=
    if maxPerMinute ≤ minuteCalls.length then
      let s := 60 - (now - minuteCalls.headD 0)
      if 0 < s then s else 0
    else 0
  let sleep2 : ℚ :=
    if maxPerHour ≤ hourCalls.length then
      let s := 3600 - (now - hourCalls.headD 0)
      if 0 < s then s else 0
    else 0
  (now + sleep1 + sleep2,
   ⟨minuteCalls ++ [now], hourCalls ++ [now]⟩)

/-- Run a sequence of `wait_if_needed` calls arriving at the given instants,
returning the instants at which each call was permitted through. -/
def runRL (maxPerMinute maxPerHour : ℕ) : RLState → List ℚ → List ℚ
  | _, [] => []
  | st, a :: rest =>
    let pr := waitIfNeeded maxPerMinute maxPerHour st a
    pr.1 :: runRL maxPerMinute maxPerHour pr.2 rest

/-- Sequential realizability of a list of arrival instants: arrivals are
nondecreasing and each call arrives no earlier than the instant the previous
call was permitted through (a single caller issuing calls back to back). -/
def seqValid (maxPerMinute maxPerHour : ℕ) : RLState → ℚ → List ℚ → Bool
  | _, _, [] => true
  | st, tprev, a :: rest =>
    decide (tprev ≤ a) &&
      (let pr := waitIfNeeded maxPerMinute maxPerHour st a
       seqValid maxPerMinute maxPerHour pr.2 pr.1 rest)

/-- Number of timestamps that lie within the 60-second sliding window ending
at `T` (timestamps strictly newer than `T - 60` and at most `T`). -/
def countInMinuteWindow (T : ℚ) (ts : List ℚ) : ℕ :=
  (ts.filter (fun t => decide (T - 60 < t) && decide (t ≤ T))).length

/-! ## FortiZTP token lifecycle (fortiztp/client.py) -/

/-- Token-holding state of `FortiZTPClient`: `_access_token` and
`_token_expiry_time`.  The refresh buffer `_token_refresh_buffer` is the
constant 60. -/
structure ZTPTokenState where
  accessToken : Option String
  tokenExpiryTime : ℚ
deriving DecidableEq, Repr

/-- Embedding of `FortiZTPClient._is_token_expired` (client.py 164-169):
true when `not self._access_token` — Python truthiness, so both a `None`
token and a held empty-string token count as no token (and an empty-string
token is reachable: `_authenticate` stores whatever `access_token` value the
endpoint returns) — or when
`time.time() >= token_expiry_time - token_refresh_buffer`. -/
def isTokenExpired (st : ZTPTokenState) (now : ℚ) : Bool :=
  match st.accessToken with
  | none => true
  | some tok =>
    if tok = "" then true
    else decide (st.tokenExpiryTime - 60 ≤ now)

/-- Embedding of the control decision inside `FortiZTPClient.get_token`
(client.py 171-175): `_authenticate` is called exactly when
`_is_token_expired()` holds. -/
def getTokenCallsAuthenticate (st : ZTPTokenState) (now : ℚ) : Bool :=
  isTokenExpired st now

/-! ## Retrying executor (fortiflex_client.py `retry_with_backoff`, 587-627;
the decorator of the same name in fortiflex_mssp.py 99-136 has identical
logic) -/

/-- Result of one invocation of the wrapped function `func`: it returns a
value, raises `requests.exceptions.HTTPError` with a response, or raises a
network-level `requests.exceptions.RequestException`. -/
inductive Outcome where
  | success (v : ℕ)
  | httpError (status : ℕ) (body : String)
  | netError
deriving DecidableEq, Repr

/-- Outcomes the retry loop treats as transient (HTTP 429, HTTP 503, or any
network-level failure). -/
def Outcome.isTransient : Outcome → Bool
  | .success _ => false
  | .httpError s _ => s == 429 || s == 503
  | .netError => true

/-- Errors that can escape `retry_with_backoff`: a re-raised `HTTPError`
(which still carries the response status and body), or the bare
`Exception("Failed after N retries")` raised once the loop ends. -/
inductive RetryError where
  | httpError (status : ℕ) (body : String)
  | exhausted (maxRetries : ℕ)
deriving DecidableEq, Repr

/-- The HTTP status and body carried by an escaping error, when any. -/
def RetryError.statusBody : RetryError → Option (ℕ × String)
  | .httpError s b => some (s, b)
  | .exhausted _ => none

/-- Embedding of the loop body of `retry_with_backoff`.  `out i` is the
outcome of the i-th invocation of `func` (0-based `attempt`), `fuel` the
number of loop iterations left.  Returns the overall result together with
the list of `time.sleep` durations performed, in order.  Each transient
failure sleeps `min(base_delay * 2 ** attempt, max_delay)` and continues;
any other `HTTPError` is re-raised at once with no sleep; when the loop ends
the bare exhaustion exception is raised. -/
def retryAux (maxRetries baseDelay maxDelay : ℕ) (out : ℕ → Outcome) :
    ℕ → ℕ → Except RetryError ℕ × List ℕ
  | _, 0 => (.error (.exhausted maxRetries), [])
  | attempt, fuel + 1 =>
    match out attempt with
    | .success v => (.ok v, [])
    | .httpError s b =>
      if s = 429 ∨ s = 503 then
        let d := min (baseDelay * 2 ^ attempt) maxDelay
        let pr := retryAux maxRetries baseDelay maxDelay out (attempt + 1) fuel
        (pr.1, d :: pr.2)
      else (.error (.httpError s b), [])
    | .netError =>
      let d := min (baseDelay * 2 ^ attempt) maxDelay
      let pr := retryAux maxRetries baseDelay maxDelay out (attempt + 1) fuel
      (pr.1, d :: pr.2)

/-- Embedding of `retry_with_backoff(func, max_retries, base_delay,
max_delay)`: run the loop `for attempt in range(max_retries)` from attempt 0. -/
def retryWithBackoff (maxRetries baseDelay maxDelay : ℕ) (out : ℕ → Outcome) :
    Except RetryError ℕ × List ℕ :=
  retryAux maxRetries baseDelay maxDelay out 0 maxRetries

/-- The backoff sleep durations of `k` consecutive transient failures
starting at attempt number `a`: `min(base * 2 ** a, maxDelay)`, then the
same with `a + 1`, and so on. -/
def backoffDelays (baseDelay maxDelay : ℕ) : ℕ → ℕ → List ℕ
  | _, 0 => []
  | a, k + 1 => min (baseDelay * 2 ^ a) maxDelay :: backoffDelays baseDelay maxDelay (a + 1) k

/-! ## FortiZTP `_request` and resource-layer surfacing (client.py 189-220) -/

/-- An HTTP response as seen by the clients: status code and body text. -/
structure HResp where
  status : ℕ
  body : String
deriving DecidableEq, Repr

/-- The FortiZTP error classes (client.py 284-297) that matter for the
request path: `AuthenticationError` (raised only by `_authenticate`) and
`APIError` (raised by the resource operations on a non-200 response). -/
inductive ZTPError where
  | authenticationError
  | apiError (status : ℕ) (body : String)
deriving DecidableEq, Repr

/-- Whether an error is the `AuthenticationError` class. -/
def ZTPError.isAuthenticationError : ZTPError → Bool
  | .authenticationError => true
  | .apiError _ _ => false

/-- Trace of one `_request` call: the response object it returns, how many
forced token refreshes it performed, and how many physical HTTP requests it
issued. -/
structure RequestTrace where
  response : HResp
  refreshes : ℕ
  physicalRequests : ℕ
deriving DecidableEq, Repr

/-- Embedding of `FortiZTPClient._request` (client.py 189-220).  `resp1` and
`resp2` are the responses the first and (if issued) second physical request
would receive; `authToken` is `some tok` when the `refresh_token` call's
`_authenticate` POST would succeed with that token and `none` when it would
fail (raising `AuthenticationError`).  On a 401 with `_retry_on_401` set,
the code refreshes once and re-issues the request once, then returns
whatever response the retry got — including a second 401. -/
def ztpRequest (retryOn401 : Bool) (resp1 resp2 : HResp) (authToken : Option String) :
    Except ZTPError RequestTrace :=
  if resp1.status = 401 ∧ retryOn401 then
    match authToken with
    | none => .error .authenticationError
    | some _ => .ok ⟨resp2, 1, 2⟩
  else .ok ⟨resp1, 0, 1⟩

/-- Embedding of the check every FortiZTP resource operation performs on the
response `_request` returned (devices.py 98-99, scripts.py 96-97,
client.py 266-267): raise `APIError` when the status is not 200. -/
def raiseForNon200 (r : Except ZTPError RequestTrace) : Except ZTPError RequestTrace :=
  match r with
  | .error e => .error e
  | .ok tr =>
    if tr.response.status ≠ 200 then .error (.apiError tr.response.status tr.response.body)
    else .ok tr

/-! ## FortiFlexClient._make_request error wrapping (fortiflex_client.py
53-94).  This embedding covers responses whose body parses as a JSON object
(`response.json()` succeeds), represented as an association list of fields
plus the raw body text. -/

/-- A response to a FortiFlex API call: status, HTTP reason phrase, the
parsed JSON-object body, and the raw body text. -/
structure FlexResp where
  status : ℕ
  reason : String
  bodyFields : List (String × String)
  rawBody : String
deriving DecidableEq, Repr

/-- Errors escaping `_make_request` or the retry wrapper: the plain
`Exception(f-string of status, reason and extracted message)` that
`_make_request` raises for an HTTP error with a JSON body, a re-raised
`HTTPError` (carrying the full response), or the retry-exhaustion
exception. -/
inductive FlexError where
  | wrappedError (status : ℕ) (reason msg : String)
  | httpError (status : ℕ) (rawBody : String)
  | exhausted (n : ℕ)
deriving DecidableEq, Repr

/-- The raw response body carried verbatim by an escaping error, when any:
only a re-raised `HTTPError` still holds the response object. -/
def FlexError.carriedBody : FlexError → Option String
  | .httpError _ b => some b
  | .wrappedError _ _ _ => none
  | .exhausted _ => none

/-- The status code recoverable from an escaping error, when any. -/
def FlexError.carriedStatus : FlexError → Option ℕ
  | .httpError s _ => some s
  | .wrappedError s _ _ => some s
  | .exhausted _ => none

/-- Embedding of `error_data.get('message', error_data.get('error', str(e)))`
(fortiflex_client.py 83): the body's `message` field, else its `error`
field, else the printed form of the `HTTPError` (modelled as an opaque
constant; the status is carried separately by the error constructor). -/
def extractedErrorMsg (resp : FlexResp) : String :=
  match resp.bodyFields.lookup "message" with
  | some m => m
  | none =>
    match resp.bodyFields.lookup "error" with
    | some m => m
    | none => "HTTPError"

/-- Embedding of `FortiFlexClient._make_request` (fortiflex_client.py 53-94)
for a response with a JSON-object body: `raise_for_status` raises on any
status of at least 400, after which the except-block wraps the error into a
plain `Exception` whose payload is the status code, the HTTP reason and the
extracted message — not the body itself; otherwise the parsed body is
returned. -/
def flexMakeRequest (resp : FlexResp) : Except FlexError (List (String × String)) :=
  if 400 ≤ resp.status then
    .error (.wrappedError resp.status resp.reason (extractedErrorMsg resp))
  else .ok resp.bodyFields

/-! ## FortiZTP `_authenticate` (client.py 130-162) and FortiFlexMSSP
`get_token` (fortiflex_mssp.py 251-290) -/

/-- A response of the OAuth token endpoint: status, whether the JSON body
has an `access_token` field, that field's value, and the optional
`expires_in` field. -/
structure AuthResp where
  status : ℕ
  hasAccessToken : Bool
  accessToken : String
  expiresIn : Option ℚ
deriving DecidableEq, Repr

/-- The JSON payload `FortiZTPClient._authenticate` POSTs to the fixed token
endpoint (client.py 140-145): username, password, the fixed client id
`fortiztp`, and `grant_type = password`. -/
def ztpAuthPayload (username password : String) : List (String × String) :=
  [("username", username), ("password", password),
   ("client_id", "fortiztp"), ("grant_type", "password")]

/-- Embedding of `FortiZTPClient._authenticate` (client.py 130-162): one
POST, no retry; a non-200 status raises `AuthenticationError`; a body with
no `access_token` raises `AuthenticationError`; otherwise the token is
stored with expiry `now + expires_in` (default 3600). -/
def ztpAuthenticate (resp : AuthResp) (now : ℚ) :
    Except ZTPError (String × ZTPTokenState) :=
  if resp.status ≠ 200 then .error .authenticationError
  else if resp.hasAccessToken = false then .error .authenticationError
  else .ok (resp.accessToken, ⟨some resp.accessToken, now + resp.expiresIn.getD 3600⟩)

/-- Result of one POST attempt inside `FortiFlexMSSP.get_token`: a 2xx
response holding an access token, an `HTTPError` from `raise_for_status`, a
`KeyError` from `data['access_token']` on a success response lacking the
field, or a network failure. -/
inductive FlexAuthOutcome where
  | okToken (token : String)
  | httpError (status : ℕ) (body : String)
  | missingAccessToken
  | netError
deriving DecidableEq, Repr

/-- Errors escaping `FortiFlexMSSP.get_token`: the re-raised `HTTPError`,
the propagated `KeyError` (neither is an `AuthenticationError`; the class
does not define one), or the retry-exhaustion exception. -/
inductive FlexAuthError where
  | httpError (status : ℕ) (body : String)
  | keyError
  | exhausted (n : ℕ)
deriving DecidableEq, Repr

/-- Decidable equality for `Except`, used to evaluate the embedded
functions on concrete inputs. -/
instance {ε α : Type} [DecidableEq ε] [DecidableEq α] : DecidableEq (Except ε α) := fun x y =>
  match x, y with
  | .ok a, .ok b =>
    if h : a = b then .isTrue (by rw [h]) else .isFalse (by simp [h])
  | .error a, .error b =>
    if h : a = b then .isTrue (by rw [h]) else .isFalse (by simp [h])
  | .ok _, .error _ => .isFalse (by simp)
  | .error _, .ok _ => .isFalse (by simp)

/-- Trace of one `FortiFlexMSSP.get_token` call: overall result, backoff
sleeps performed, and the number of POSTs issued to the token endpoint. -/
structure FlexAuthTrace where
  result : Except FlexAuthError String
  sleeps : List ℕ
  posts : ℕ
deriving DecidableEq, Repr

/-- Loop of the `@retry_with_backoff` decorator around one token POST
(fortiflex_mssp.py 99-136 and 251-290): HTTP 429/503 and network failures
sleep and retry, any other `HTTPError` and the `KeyError` propagate at
once. -/
def flexGetTokenAux (maxRetries baseDelay maxDelay : ℕ) (out : ℕ → FlexAuthOutcome) :
    ℕ → ℕ → FlexAuthTrace
  | _, 0 => ⟨.error (.exhausted maxRetries), [], 0⟩
  | attempt, fuel + 1 =>
    match out attempt with
    | .okToken t => ⟨.ok t, [], 1⟩
    | .httpError s body =>
      if s = 429 ∨ s = 503 then
        let tr := flexGetTokenAux maxRetries baseDelay maxDelay out (attempt + 1) fuel
        ⟨tr.result, min (baseDelay * 2 ^ attempt) maxDelay :: tr.sleeps, tr.posts + 1⟩
      else ⟨.error (.httpError s body), [], 1⟩
    | .missingAccessToken => ⟨.error .keyError, [], 1⟩
    | .netError =>
      let tr := flexGetTokenAux maxRetries baseDelay maxDelay out (attempt + 1) fuel
      ⟨tr.result, min (baseDelay * 2 ^ attempt) maxDelay :: tr.sleeps, tr.posts + 1⟩

/-- Embedding of `FortiFlexMSSP.get_token`, which is decorated with
`@retry_with_backoff(max_retries=3)` (defaults `base_delay=1`,
`max_delay=60`), so transient failures of the token endpoint are retried
with backoff inside the call. -/
def flexGetToken (out : ℕ → FlexAuthOutcome) : FlexAuthTrace :=
  flexGetTokenAux 3 1 60 out 0 3

/-! ## JSON values, `create_config` payload (fortiflex_client.py 100-137)
and the response parsing done by the example scripts -/

/-- A small JSON value type, enough for the payloads and responses the
clients build and parse. -/
inductive JVal where
  | jstr (s : String)
  | jnum (n : ℤ)
  | jbool (b : Bool)
  | jarr (xs : List JVal)
  | jobj (fields : List (String × JVal))

/-- Key lookup in a JSON object, modelling Python dict access. -/
def lookupJ (payload : List (String × JVal)) (key : String) : Option JVal :=
  List.lookup key payload

/-- The keys of a JSON object, in insertion order. -/
def payloadKeys (payload : List (String × JVal)) : List String :=
  payload.map Prod.fst

/-- Embedding of the payload built by `FortiFlexClient.create_config`
(fortiflex_client.py 126-134): `programSerialNumber`, `name`,
`productTypeId` and `parameters` (each parameter a dict with `id` and
`value`), plus `accountId` when `account_id` is supplied and truthy. -/
def createConfigPayload (programSn name : String) (productTypeId : ℤ)
    (parameters : List (ℤ × String)) (accountId : Option ℤ) :
    List (String × JVal) :=
  [("programSerialNumber", .jstr programSn),
   ("name", .jstr name),
   ("productTypeId", .jnum productTypeId),
   ("parameters", .jarr (parameters.map (fun p => .jobj [("id", .jnum p.1), ("value", .jstr p.2)])))]
  ++ (match accountId with
      | some a => if a ≠ 0 then [("accountId", .jnum a)] else []
      | none => [])

/-- The record the example scripts build from a create-config response. -/
structure CreatedConfig where
  config_id : ℤ
deriving DecidableEq, Repr

/-- Embedding of the response parsing done by the example scripts
(`config_id = config_result['configs']['id']`,
examples/create-configuration&entitlement.py line 119 and
examples/use_case_1_customer_onboarding.py line 160, which then stores it
under the `config_id` key). -/
def parseCreateConfigResponse (resp : List (String × JVal)) : Option CreatedConfig :=
  match List.lookup "configs" resp with
  | some (.jobj fields) =>
    match List.lookup "id" fields with
    | some (.jnum n) => some ⟨n⟩
    | _ => none
  | _ => none

/-! ## ScriptManager.create (fortiztp/scripts.py 171-301) -/

/-- The response of the script-metadata POST: status, the `oid` field of its
JSON body when present, and the body text. -/
structure CreateScriptResp where
  status : ℕ
  oid : Option ℤ
  text : String
deriving DecidableEq, Repr

/-- Errors `ScriptManager.create` can raise: the two `ValueError`s for a
missing name or content, and the two `APIError`s for a failed metadata POST
and for a response with no oid (`if not script_oid`, which also treats a
zero oid as missing). -/
inductive ScriptError where
  | valueError (param : String)
  | apiErrorCreateFailed (status : ℕ) (text : String)
  | apiErrorNoOid
deriving DecidableEq, Repr

/-- Whether an error is the `APIError` class (rather than `ValueError`). -/
def ScriptError.isAPIError : ScriptError → Bool
  | .valueError _ => false
  | .apiErrorCreateFailed _ _ => true
  | .apiErrorNoOid => true

/-- The dictionary `ScriptManager.create` returns.  The source's success
branch omits the `partial_success` and `content_upload_failed` keys, which
Python callers read as falsy; the model makes them explicit booleans.
`partialOk` models the `partial_success` key and `contentUploadFailed` the
`content_upload_failed` key. -/
structure ScriptCreateResult where
  success : Bool
  partialOk : Bool
  contentUploadFailed : Bool
  oid : ℤ
  contentLength : ℕ
deriving DecidableEq, Repr

/-- The fallback loop of `ScriptManager.create` (scripts.py 272-286): each
fallback upload either raises (modelled `none`) or returns a status; the
loop succeeds when some fallback returns 200, 201 or 204. -/
def fallbackSucceeds (fallbacks : List (Option ℕ)) : Bool :=
  fallbacks.any (fun r =>
    match r with
    | some s => s == 200 || s == 201 || s == 204
    | none => false)

/-- Whether the content upload as a whole succeeds: the primary JSON PUT
returns 200/201/204, or some fallback does. -/
def uploadOk (contentStatus : ℕ) (fallbacks : List (Option ℕ)) : Bool :=
  (contentStatus == 200 || contentStatus == 201 || contentStatus == 204)
    || fallbackSucceeds fallbacks

/-- Embedding of `ScriptManager.create` (scripts.py 171-301).  `createResp`
is the response of the metadata POST, `contentStatus` the status of the
primary JSON content PUT, `fallbacks` the behaviors of the fallback
uploads. -/
def scriptCreate (name content : String) (createResp : CreateScriptResp)
    (contentStatus : ℕ) (fallbacks : List (Option ℕ)) :
    Except ScriptError ScriptCreateResult :=
  if name = "" then .error (.valueError "name")
  else if content = "" then .error (.valueError "content")
  else if createResp.status ≠ 200 ∧ createResp.status ≠ 201 then
    .error (.apiErrorCreateFailed createResp.status createResp.text)
  else
    match createResp.oid with
    | none => .error .apiErrorNoOid
    | some oid =>
      if oid = 0 then .error .apiErrorNoOid
      else if contentStatus = 200 ∨ contentStatus = 201 ∨ contentStatus = 204 then
        .ok ⟨true, false, false, oid, content.length⟩
      else if fallbackSucceeds fallbacks then
        .ok ⟨true, false, false, oid, content.length⟩
      else
        .ok ⟨false, true, true, oid, 0⟩

/-! ## DeviceManager.provision (fortiztp/devices.py 146-243) -/

/-- The class constant `VALID_DEVICE_TYPES` (devices.py 57). -/
def validDeviceTypes : List String :=
  ["FortiGate", "FortiAP", "FortiSwitch", "FortiExtender"]

/-- The class constant `VALID_PROVISION_TARGETS` (devices.py 59). -/
def validProvisionTargets : List String :=
  ["FortiManager", "FortiGateCloud", "FortiEdgeCloud", "ExternalController"]

/-- The arguments of `DeviceManager.provision`.  Optional arguments are
`Option`s; `none` means the Python default (`None`). -/
structure ProvisionArgs where
  serialNumber : String
  deviceType : String
  provisionStatus : String
  provisionTarget : Option String
  region : Option String
  fortimanagerOid : Option ℤ
  scriptOid : Option ℤ
  useDefaultScript : Option Bool
  externalControllerSn : Option String
  externalControllerIp : Option String
  firmwareProfile : Option String

/-- Errors `DeviceManager.provision` can raise: `ValueError` from input
validation, or `APIError` from a non-200 provision response. -/
inductive ProvisionError where
  | valueError (param : String)
  | apiError (status : ℕ) (body : String)
deriving DecidableEq, Repr

/-- The guard `if provision_target and provision_target not in
VALID_PROVISION_TARGETS` (devices.py 211): a supplied target is validated
only when it is truthy as a Python string, that is, nonempty. -/
def suppliedInvalidTarget : Option String → Bool
  | some t => !(t == "") && !(validProvisionTargets.contains t)
  | none => false

/-- The payload `DeviceManager.provision` builds (devices.py 217-238).
String-valued optionals are included only when truthy (nonempty); the oid
and boolean optionals are included whenever not `None`. -/
def provisionPayload (a : ProvisionArgs) : List (String × JVal) :=
  [("deviceType", .jstr a.deviceType), ("provisionStatus", .jstr a.provisionStatus)]
  ++ (match a.provisionTarget with
      | some t => if t ≠ "" then [("provisionTarget", .jstr t)] else []
      | none => [])
  ++ (match a.region with
      | some r => if r ≠ "" then [("region", .jstr r)] else []
      | none => [])
  ++ (match a.fortimanagerOid with
      | some n => [("fortiManagerOid", .jnum n)]
      | none => [])
  ++ (match a.scriptOid with
      | some n => [("scriptOid", .jnum n)]
      | none => [])
  ++ (match a.useDefaultScript with
      | some b => [("useDefaultScript", .jbool b)]
      | none => [])
  ++ (match a.externalControllerSn with
      | some s => if s ≠ "" then [("externalControllerSn", .jstr s)] else []
      | none => [])
  ++ (match a.externalControllerIp with
      | some s => if s ≠ "" then [("externalControllerIp", .jstr s)] else []
      | none => [])
  ++ (match a.firmwareProfile with
      | some s => if s ≠ "" then [("firmwareProfile", .jstr s)] else []
      | none => [])

/-- The result dictionary `DeviceManager.provision` returns on success
(devices.py 251-263), restricted to the fields the claims mention. -/
structure ProvisionResult where
  success : Bool
  serialNumber : String
  deviceType : String
  provisionStatus : String
  provisionTarget : Option String
deriving DecidableEq, Repr

/-- Embedding of `DeviceManager.provision` (devices.py 146-243): validate
the device type, the provision status, and any truthy provision target,
raising `ValueError` before any HTTP request on failure; otherwise issue the
PUT (whose response is `resp`) and raise `APIError` on a non-200 status.
The second component counts the HTTP requests issued. -/
def deviceProvision (a : ProvisionArgs) (resp : HResp) :
    Except ProvisionError ProvisionResult × ℕ :=
  if a.deviceType ∉ validDeviceTypes then
    (.error (.valueError "device_type"), 0)
  else if a.provisionStatus ≠ "provisioned" ∧ a.provisionStatus ≠ "unprovisioned" then
    (.error (.valueError "provision_status"), 0)
  else if suppliedInvalidTarget a.provisionTarget then
    (.error (.valueError "provision_target"), 0)
  else if resp.status ≠ 200 then
    (.error (.apiError resp.status resp.body), 1)
  else
    (.ok ⟨true, a.serialNumber, a.deviceType, a.provisionStatus, a.provisionTarget⟩, 1)

/-! ## Theorems -/

/-- C1: claimed invariant — for every sequence of calls to the rate
limiter's `wait_if_needed`, the number of calls permitted through whose
timestamps lie within any 60-second sliding window never exceeds
`max_per_minute`.  The code violates this: with `max_per_minute = 1` and
sequential calls arriving at t = 0, 1, 60 (each arrival at or after the
instant the previous call returned, as `seqValid` certifies), the calls are
permitted through at t = 0, 60 and 61, and the window ending at t = 61
contains two permitted calls.  The cause is that `wait_if_needed` records
the pre-sleep timestamp (here 1 instead of 60) and then only sleeps until
that stale oldest entry ages out. -/
theorem C1_rate_limiter_window_exceeded :
    seqValid 1 1000 ⟨[], []⟩ 0 [0, 1, 60] = true ∧
    runRL 1 1000 ⟨[], []⟩ [0, 1, 60] = [0, 60, 61] ∧
    1 < countInMinuteWindow 61 (runRL 1 1000 ⟨[], []⟩ [0, 1, 60]) := by
  refine ⟨?_, ?_, ?_⟩ <;>
    norm_num [seqValid, runRL, waitIfNeeded, countInMinuteWindow, List.filter]

/-- C2 counterexample: the claim states that `get_token()` authenticates if
and only if no token is held or the time until expiry is strictly less than
the 60-second buffer.  At the boundary instant the code disagrees: with a
token expiring at 3600, a call at time 3540 triggers authentication
(`_is_token_expired` uses `>=`), although the time until expiry is exactly
60 and not less than 60. -/
theorem C2_counterexample :
    getTokenCallsAuthenticate ⟨some "tok", 3600⟩ 3540 = true ∧
    ¬ ((3600 : ℚ) - 3540 < 60) := by
  constructor
  · norm_num [getTokenCallsAuthenticate, isTokenExpired]
  · norm_num

/-- C2 (amended): `get_token()` performs a fresh authenticate call if and
only if no token is held, or the held token is the empty string (falsy in
Python, so treated as no token), or the time until the held token's expiry
is at most the 60-second buffer; concretely, for a nonempty token with
expires_in = 3600 issued at time T, `get_token()` triggers a fresh
authenticate call exactly when invoked at any time ≥ T + 3540. -/
theorem C2_token_refresh_buffer :
    (∀ (st : ZTPTokenState) (now : ℚ),
      getTokenCallsAuthenticate st now = true ↔
        (st.accessToken = none ∨ st.accessToken = some "" ∨
          st.tokenExpiryTime - now ≤ 60)) ∧
    (∀ (tok : String) (T now : ℚ), tok ≠ "" →
      (getTokenCallsAuthenticate ⟨some tok, T + 3600⟩ now = true ↔ T + 3540 ≤ now)) := by
  have hmain : ∀ (st : ZTPTokenState) (now : ℚ),
      getTokenCallsAuthenticate st now = true ↔
        (st.accessToken = none ∨ st.accessToken = some "" ∨
          st.tokenExpiryTime - now ≤ 60) := by
    intro st now
    cases h : st.accessToken with
    | none => simp [getTokenCallsAuthenticate, isTokenExpired, h]
    | some tok =>
      by_cases htok : tok = ""
      · subst htok
        simp [getTokenCallsAuthenticate, isTokenExpired, h]
      · simp only [getTokenCallsAuthenticate, isTokenExpired, h, if_neg htok,
          decide_eq_true_eq]
        constructor
        · intro hle
          right
          right
          linarith
        · rintro (hnone | hempty | hle)
          · exact absurd hnone (by simp)
          · rw [Option.some.injEq] at hempty
            exact absurd hempty htok
          · linarith
  refine ⟨hmain, ?_⟩
  intro tok T now htok
  rw [hmain ⟨some tok, T + 3600⟩ now]
  constructor
  · rintro (hnone | hempty | hle)
    · exact absurd hnone (by simp)
    · rw [Option.some.injEq] at hempty
      exact absurd hempty htok
    · simp only at hle
      linarith
  · intro h
    right
    right
    simp only
    linarith

/-- C2 witness: a held nonempty token expiring at 3600 triggers a fresh
authenticate call when `get_token()` is invoked at time 3540. -/
theorem C2_buffer_witness :
    getTokenCallsAuthenticate ⟨some "tok", 0 + 3600⟩ 3540 = true :=
  ((C2_token_refresh_buffer.2 "tok" 0 3540 (by decide)).mpr (by norm_num))

/-- Length of the backoff-delay list. -/
theorem backoffDelays_length (b m : ℕ) :
    ∀ (k a : ℕ), (backoffDelays b m a k).length = k := by
  intro k
  induction k with
  | zero => intro a; rfl
  | succ k ih => intro a; simp [backoffDelays, ih]

/-- Element `i` of the backoff-delay list starting at attempt `a`. -/
theorem backoffDelays_getD (b m : ℕ) :
    ∀ (k a i : ℕ), i < k →
      (backoffDelays b m a k).getD i 0 = min (b * 2 ^ (a + i)) m := by
  intro k
  induction k with
  | zero => intro a i h; omega
  | succ k ih =>
    intro a i h
    cases i with
    | zero => simp [backoffDelays]
    | succ i =>
      rw [show a + (i + 1) = (a + 1) + i by omega]
      simpa [backoffDelays] using ih (a + 1) i (by omega)

/-- A transient HTTP outcome is a 429 or a 503. -/
theorem transient_http (s : ℕ) (body : String)
    (h : (Outcome.httpError s body).isTransient = true) : s = 429 ∨ s = 503 := by
  simpa [Outcome.isTransient] using h

/-- Core lemma: if the first `k` attempts from `a` are transient and
attempt `a + k` succeeds with `v`, with at least `k + 1` loop iterations
left, the loop returns `v` and sleeps exactly the backoff delays of the `k`
failed attempts. -/
theorem retryAux_ok (maxR b m : ℕ) (out : ℕ → Outcome) :
    ∀ (k a fuel v : ℕ), k < fuel →
      (∀ i, i < k → (out (a + i)).isTransient = true) →
      out (a + k) = .success v →
      retryAux maxR b m out a fuel = (.ok v, backoffDelays b m a k) := by
  intro k
  induction k with
  | zero =>
    intro a fuel v hk ht hs
    cases fuel with
    | zero => omega
    | succ f =>
      rw [show a + 0 = a by omega] at hs
      simp [retryAux, hs, backoffDelays]
  | succ k ih =>
    intro a fuel v hk ht hs
    cases fuel with
    | zero => omega
    | succ f =>
      have h0 : (out a).isTransient = true := by
        have := ht 0 (by omega)
        simpa using this
      have hrec : retryAux maxR b m out (a + 1) f = (.ok v, backoffDelays b m (a + 1) k) := by
        refine ih (a + 1) f v (by omega) ?_ ?_
        · intro i hi
          have := ht (i + 1) (by omega)
          rwa [show a + (i + 1) = (a + 1) + i by omega] at this
        · rwa [show a + (k + 1) = (a + 1) + k by omega] at hs
      cases hout : out a with
      | success w => rw [hout] at h0; simp [Outcome.isTransient] at h0
      | httpError s body =>
        rw [hout] at h0
        have hcond : s = 429 ∨ s = 503 := transient_http s body h0
        simp [retryAux, hout, if_pos hcond, hrec, backoffDelays]
      | netError =>
        simp [retryAux, hout, hrec, backoffDelays]

/-- Core lemma: if every attempt the loop can make is transient, the loop
exhausts its budget, sleeps all the backoff delays, and raises the bare
exhaustion exception. -/
theorem retryAux_exhausted (maxR b m : ℕ) (out : ℕ → Outcome) :
    ∀ (fuel a : ℕ),
      (∀ i, i < fuel → (out (a + i)).isTransient = true) →
      retryAux maxR b m out a fuel = (.error (.exhausted maxR), backoffDelays b m a fuel) := by
  intro fuel
  induction fuel with
  | zero => intro a h; rfl
  | succ f ih =>
    intro a h
    have h0 : (out a).isTransient = true := by
      have := h 0 (by omega)
      simpa using this
    have hrec : retryAux maxR b m out (a + 1) f
        = (.error (.exhausted maxR), backoffDelays b m (a + 1) f) := by
      refine ih (a + 1) ?_
      intro i hi
      have := h (i + 1) (by omega)
      rwa [show a + (i + 1) = (a + 1) + i by omega] at this
    cases hout : out a with
    | success w => rw [hout] at h0; simp [Outcome.isTransient] at h0
    | httpError s body =>
      rw [hout] at h0
      have hcond : s = 429 ∨ s = 503 := transient_http s body h0
      simp [retryAux, hout, if_pos hcond, hrec, backoffDelays]
    | netError =>
      simp [retryAux, hout, hrec, backoffDelays]

/-- C3: for every sequence of k transient responses (HTTP 429, HTTP 503 or
a network failure) followed by a success on attempt N = k + 1 ≤ max_retries,
`retry_with_backoff` returns the successful result, the sleep after failed
attempt number i (counting from 0) is exactly min(base_delay * 2 ^ i,
max_delay), and the delays strictly increase until capped at max_delay. -/
theorem C3_retry_transient_then_success (maxR b m k v : ℕ) (out : ℕ → Outcome)
    (htrans : ∀ i, i < k → (out i).isTransient = true)
    (hsucc : out k = .success v)
    (hk : k < maxR) (hb : 0 < b) :
    retryWithBackoff maxR b m out = (.ok v, backoffDelays b m 0 k) ∧
    (backoffDelays b m 0 k).length = k ∧
    (∀ i, i < k → (backoffDelays b m 0 k).getD i 0 = min (b * 2 ^ i) m) ∧
    (∀ i, i + 1 < k →
      (backoffDelays b m 0 k).getD i 0 < (backoffDelays b m 0 k).getD (i + 1) 0 ∨
      (backoffDelays b m 0 k).getD (i + 1) 0 = m) := by
  have hgetD : ∀ i, i < k → (backoffDelays b m 0 k).getD i 0 = min (b * 2 ^ i) m := by
    intro i hi
    simpa using backoffDelays_getD b m k 0 i hi
  refine ⟨?_, backoffDelays_length b m k 0, hgetD, ?_⟩
  · have := retryAux_ok maxR b m out k 0 maxR v hk
      (fun i hi => by simpa using htrans i hi) (by simpa using hsucc)
    simpa [retryWithBackoff] using this
  · intro i hi
    rw [hgetD i (by omega), hgetD (i + 1) hi]
    by_cases hcap : m ≤ b * 2 ^ (i + 1)
    · right
      exact Nat.min_eq_right hcap
    · left
      push_neg at hcap
      have hlt : b * 2 ^ i < b * 2 ^ (i + 1) := by
        have h2 : (2 : ℕ) ^ i < 2 ^ (i + 1) := Nat.pow_lt_pow_succ (by norm_num)
        exact mul_lt_mul_of_pos_left h2 hb
      rw [Nat.min_eq_left (le_of_lt hcap)]
      exact lt_of_le_of_lt (Nat.min_le_left _ _) hlt

/-- C3 witness: two transient failures (a 429 and a network error) followed
by a success on the third attempt with max_retries = 3, base_delay = 1,
max_delay = 60 return the result with sleeps 1 and 2. -/
theorem C3_witness :
    retryWithBackoff 3 1 60
        (fun i => [Outcome.httpError 429 "x", Outcome.netError, Outcome.success 7].getD i
          (Outcome.success 7))
      = (.ok 7, backoffDelays 1 60 0 2) ∧
    backoffDelays 1 60 0 2 = [1, 2] :=
  ⟨(C3_retry_transient_then_success 3 1 60 2 7 _ (by decide) (by decide) (by decide)
      (by decide)).1,
   by decide⟩

/-- C4 counterexample: the claim states that when the retried request after
a 401 again returns 401, the call fails with `AuthenticationError`.  In the
code, `_request` simply returns the second 401 response (with exactly one
refresh and one retry), and the resource layer surfaces it as `APIError`,
not `AuthenticationError`. -/
theorem C4_counterexample :
    ztpRequest true ⟨401, "unauthorized"⟩ ⟨401, "unauthorized"⟩ (some "newtok")
      = .ok ⟨⟨401, "unauthorized"⟩, 1, 2⟩ ∧
    raiseForNon200 (ztpRequest true ⟨401, "unauthorized"⟩ ⟨401, "unauthorized"⟩ (some "newtok"))
      = .error (.apiError 401 "unauthorized") ∧
    ZTPError.isAuthenticationError (.apiError 401 "unauthorized") = false := by
  refine ⟨by decide, by decide, rfl⟩

/-- C4 (amended): a 401 response causes exactly one forced token refresh
and exactly one re-issued request, which is not retried further; if the
retried request again returns 401, the second response is returned and the
resource layer surfaces it as `APIError`; `AuthenticationError` arises only
when the re-authentication call itself fails. -/
theorem C4_retry_on_401 (resp1 resp2 : HResp) (tok : String)
    (h401 : resp1.status = 401) :
    ztpRequest true resp1 resp2 (some tok) = .ok ⟨resp2, 1, 2⟩ ∧
    ztpRequest true resp1 resp2 none = .error .authenticationError ∧
    (resp2.status = 401 →
      raiseForNon200 (ztpRequest true resp1 resp2 (some tok))
        = .error (.apiError 401 resp2.body)) := by
  refine ⟨?_, ?_, ?_⟩
  · simp [ztpRequest, h401]
  · simp [ztpRequest, h401]
  · intro h2
    simp [ztpRequest, raiseForNon200, h401, h2]

/-- C4 witness: a 401 followed by a 200 on the single retried request, with
a successful re-authentication, returns the 200 response after exactly one
refresh and two physical requests. -/
theorem C4_witness :
    ztpRequest true ⟨401, "x"⟩ ⟨200, "devices"⟩ (some "tok2")
      = .ok ⟨⟨200, "devices"⟩, 1, 2⟩ :=
  (C4_retry_on_401 ⟨401, "x"⟩ ⟨200, "devices"⟩ "tok2" rfl).1

/-- C5 counterexample: the claim states the surfaced error carries the
response body verbatim.  For a 400 response with a JSON body,
`_make_request` raises a plain `Exception` holding the status, reason and
only the extracted `message` field; the raw body is not carried. -/
theorem C5_counterexample :
    flexMakeRequest ⟨400, "Bad Request", [("message", "no data"), ("detail", "d")], "raw body"⟩
      = .error (.wrappedError 400 "Bad Request" "no data") ∧
    FlexError.carriedBody (.wrappedError 400 "Bad Request" "no data") = none ∧
    FlexError.carriedStatus (.wrappedError 400 "Bad Request" "no data") = some 400 := by
  refine ⟨by decide, rfl, rfl⟩

/-- C5 (amended): a 4xx/5xx status other than 401/429/503 fails the logical
call immediately — zero retries and zero backoff sleeps.  The retry layer
re-raises the `HTTPError`, which carries the status and body verbatim;
`_make_request`, however, wraps a JSON-bodied error response into a plain
`Exception` carrying the status, the reason and only the extracted
`message`/`error` field, not the body verbatim. -/
theorem C5_nontransient_immediate (s : ℕ) (body : String) (maxR b m : ℕ)
    (out : ℕ → Outcome) (resp : FlexResp)
    (hs400 : 400 ≤ s) (hs401 : s ≠ 401) (hs429 : s ≠ 429) (hs503 : s ≠ 503)
    (hout : out 0 = .httpError s body) (hmaxR : 0 < maxR)
    (hresp : resp.status = s) :
    retryWithBackoff maxR b m out = (.error (.httpError s body), []) ∧
    RetryError.statusBody (.httpError s body) = some (s, body) ∧
    flexMakeRequest resp = .error (.wrappedError s resp.reason (extractedErrorMsg resp)) ∧
    FlexError.carriedStatus (.wrappedError s resp.reason (extractedErrorMsg resp)) = some s := by
  refine ⟨?_, rfl, ?_, rfl⟩
  · cases maxR with
    | zero => omega
    | succ n => simp [retryWithBackoff, retryAux, hout, hs429, hs503]
  · have h400 : 400 ≤ resp.status := by omega
    simp only [flexMakeRequest]
    rw [if_pos h400, hresp]

/-- C5 witness: a 400 response fails at once with no sleeps at the retry
layer (status and body still attached), and is wrapped by `_make_request`
into the status-reason-message exception. -/
theorem C5_witness :
    retryWithBackoff 3 1 60 (fun _ => Outcome.httpError 400 "err")
      = (.error (.httpError 400 "err"), []) ∧
    flexMakeRequest ⟨400, "Bad Request", [("message", "no data")], "raw"⟩
      = .error (.wrappedError 400 "Bad Request" "no data") := by
  have h := C5_nontransient_immediate 400 "err" 3 1 60 (fun _ => Outcome.httpError 400 "err")
    ⟨400, "Bad Request", [("message", "no data")], "raw"⟩ (by decide) (by decide) (by decide)
    (by decide) rfl (by decide) rfl
  exact ⟨h.1, h.2.2.1⟩

/-- C6 counterexample: the claim states that the error raised after the
retry budget is exhausted preserves the last observed HTTP status and body.
The code raises the bare `Exception("Failed after 3 retries")`, which
carries neither — here the last observed failure was a 429 with body
`lastbody`, and the raised error holds no status or body at all. -/
theorem C6_counterexample :
    retryWithBackoff 3 1 60
        (fun i => [Outcome.httpError 429 "body1", Outcome.httpError 503 "body2",
          Outcome.httpError 429 "lastbody"].getD i (Outcome.httpError 429 "lastbody"))
      = (.error (.exhausted 3), [1, 2, 4]) ∧
    RetryError.statusBody (.exhausted 3) = none := by
  exact ⟨by decide, rfl⟩

/-- C6 (amended): whenever all max_retries transient attempts of one
logical call have failed, the error raised is the generic
`Exception("Failed after N retries")`, which carries the retry count but
neither the HTTP status nor the body of the last observed failure. -/
theorem C6_exhaustion_loses_status (maxR b m : ℕ) (out : ℕ → Outcome)
    (hall : ∀ i, i < maxR → (out i).isTransient = true) :
    retryWithBackoff maxR b m out = (.error (.exhausted maxR), backoffDelays b m 0 maxR) ∧
    RetryError.statusBody (.exhausted maxR) = none := by
  refine ⟨?_, rfl⟩
  have := retryAux_exhausted maxR b m out maxR 0 (fun i hi => by simpa using hall i hi)
  simpa [retryWithBackoff] using this

/-- C6 witness: two network failures exhaust a budget of two retries and
the raised error carries no status or body. -/
theorem C6_witness :
    retryWithBackoff 2 1 60 (fun _ => Outcome.netError)
      = (.error (.exhausted 2), backoffDelays 1 60 0 2) ∧
    RetryError.statusBody (.exhausted 2) = none :=
  C6_exhaustion_loses_status 2 1 60 (fun _ => Outcome.netError) (by decide)

/-- C7 counterexample: the claim states the Token Manager's authenticate
call is a single POST with no retries applied inside the call.
`FortiFlexMSSP.get_token` is decorated with `@retry_with_backoff`, so a 429
from the token endpoint is retried inside the call: two POSTs are issued
and a backoff sleep of 1 second is taken. -/
theorem C7_counterexample :
    (flexGetToken (fun i => if i = 0 then .httpError 429 "busy" else .okToken "tok")).posts = 2 ∧
    (flexGetToken (fun i => if i = 0 then .httpError 429 "busy" else .okToken "tok")).sleeps
      = [1] ∧
    (flexGetToken (fun i => if i = 0 then .httpError 429 "busy" else .okToken "tok")).result
      = .ok "tok" := by
  refine ⟨by decide, by decide, by decide⟩

/-- C7 (amended): the FortiZTP authenticate call is a single POST of
username, password, client_id and grant_type = password with no retries,
and fails with `AuthenticationError` exactly when the identity provider
returns a non-200 status or the body lacks an access_token field.  The
FortiFlex MSSP `get_token`, by contrast, retries transient failures of the
token endpoint inside the call (two POSTs and a sleep for a 429 followed by
success) and surfaces a non-transient auth failure as the re-raised
`HTTPError`, not an `AuthenticationError`. -/
theorem C7_authenticate_behavior :
    (∀ (resp : AuthResp) (now : ℚ),
      ztpAuthenticate resp now = .error .authenticationError ↔
        (resp.status ≠ 200 ∨ resp.hasAccessToken = false)) ∧
    (∀ u p : String, ztpAuthPayload u p
     = [("username", u), ("password", p), ("client_id", "fortiztp"), ("grant_type", "password")]) ∧
    (flexGetToken (fun i => if i = 0 then .httpError 429 "busy" else .okToken "tok")).posts = 2 ∧
    flexGetToken (fun _ => .httpError 401 "denied")
      = ⟨.error (.httpError 401 "denied"), [], 1⟩ := by
  refine ⟨?_, fun u p => rfl, by decide, by decide⟩
  intro resp now
  by_cases h1 : resp.status = 200
  · by_cases h2 : resp.hasAccessToken = true
    · simp [ztpAuthenticate, h1, h2]
    · simp [ztpAuthenticate, h1, h2]
  · simp [ztpAuthenticate, h1]

/-- C8: the create-configuration payload for name "X", product_type_id 101
and parameters [(27, "FGT60F")] contains exactly those arguments under the
documented keys (plus the program serial number, as documented), and the
example-script parser applied to the canned response
configs -> (id -> 555) yields the record with config_id 555. -/
theorem C8_create_config_roundtrip (sn : String) :
    lookupJ (createConfigPayload sn "X" 101 [(27, "FGT60F")] none) "name"
      = some (.jstr "X") ∧
    lookupJ (createConfigPayload sn "X" 101 [(27, "FGT60F")] none) "productTypeId"
      = some (.jnum 101) ∧
    lookupJ (createConfigPayload sn "X" 101 [(27, "FGT60F")] none) "parameters"
      = some (.jarr [.jobj [("id", .jnum 27), ("value", .jstr "FGT60F")]]) ∧
    lookupJ (createConfigPayload sn "X" 101 [(27, "FGT60F")] none) "programSerialNumber"
      = some (.jstr sn) ∧
    payloadKeys (createConfigPayload sn "X" 101 [(27, "FGT60F")] none)
      = ["programSerialNumber", "name", "productTypeId", "parameters"] ∧
    parseCreateConfigResponse [("configs", .jobj [("id", .jnum 555)])] = some ⟨555⟩ :=
  ⟨rfl, rfl, rfl, rfl, rfl, rfl⟩

/-- Shape of `ScriptManager.create` when the metadata POST succeeded with a
usable oid: the result is the full-success dictionary or the
partial-success dictionary according to whether some content upload
succeeded. -/
theorem scriptCreate_ok_shape (name content : String) (cr : CreateScriptResp)
    (cs : ℕ) (fbs : List (Option ℕ)) (hn : name ≠ "") (hc : content ≠ "")
    (hst : cr.status = 200 ∨ cr.status = 201) (oid : ℤ) (hoid : cr.oid = some oid)
    (h0 : oid ≠ 0) :
    scriptCreate name content cr cs fbs =
      (if uploadOk cs fbs then .ok ⟨true, false, false, oid, content.length⟩
       else .ok ⟨false, true, true, oid, 0⟩) := by
  simp only [scriptCreate, if_neg hn, if_neg hc]
  rw [if_neg (by rcases hst with h | h <;> simp [h])]
  rw [hoid]
  simp only [if_neg h0]
  by_cases h1 : cs = 200 ∨ cs = 201 ∨ cs = 204
  · have hup : uploadOk cs fbs = true := by
      rcases h1 with h | h | h <;> simp [uploadOk, h]
    rw [if_pos h1, hup, if_pos rfl]
  · rw [if_neg h1]
    by_cases h2 : fallbackSucceeds fbs = true
    · have hup : uploadOk cs fbs = true := by simp [uploadOk, h2]
      rw [hup, if_pos rfl]
      simp [h2]
    · have hup : uploadOk cs fbs = false := by
        simp only [uploadOk, Bool.or_eq_false_iff]
        refine ⟨?_, by simpa using h2⟩
        simp only [Bool.or_eq_false_iff, beq_eq_false_iff_ne]
        push_neg at h1
        exact ⟨⟨h1.1, h1.2.1⟩, h1.2.2⟩
      rw [hup]
      simp [h2]

/-- Shape of `ScriptManager.create` when the metadata POST failed. -/
theorem scriptCreate_createFailed (name content : String) (cr : CreateScriptResp)
    (cs : ℕ) (fbs : List (Option ℕ)) (hn : name ≠ "") (hc : content ≠ "")
    (hst : ¬(cr.status = 200 ∨ cr.status = 201)) :
    scriptCreate name content cr cs fbs
      = .error (.apiErrorCreateFailed cr.status cr.text) := by
  simp only [scriptCreate, if_neg hn, if_neg hc]
  rw [if_pos (by tauto)]

/-- Shape of `ScriptManager.create` when the metadata POST succeeded but
returned no usable oid. -/
theorem scriptCreate_noOid (name content : String) (cr : CreateScriptResp)
    (cs : ℕ) (fbs : List (Option ℕ)) (hn : name ≠ "") (hc : content ≠ "")
    (hst : cr.status = 200 ∨ cr.status = 201)
    (hoid : cr.oid = none ∨ cr.oid = some 0) :
    scriptCreate name content cr cs fbs = .error .apiErrorNoOid := by
  simp only [scriptCreate, if_neg hn, if_neg hc]
  rw [if_neg (by rcases hst with h | h <;> simp [h])]
  rcases hoid with h | h
  · rw [h]
  · rw [h]
    simp

/-- C9: with a nonempty name and content, if the metadata POST succeeds
with an oid but every content upload fails, `ScriptManager.create` returns
normally with success false, partial_success true, content_upload_failed
true and the created oid; it raises `APIError` only when the metadata POST
fails or returns no oid; and it returns success true exactly when the
metadata POST succeeds with an oid and some content upload succeeds. -/
theorem C9_script_create_semantics (name content : String) (cr : CreateScriptResp)
    (cs : ℕ) (fbs : List (Option ℕ))
    (hn : name ≠ "") (hc : content ≠ "") :
    ((cr.status = 200 ∨ cr.status = 201) → ∀ oid, cr.oid = some oid → oid ≠ 0 →
      uploadOk cs fbs = false →
      scriptCreate name content cr cs fbs = .ok ⟨false, true, true, oid, 0⟩) ∧
    (∀ e, scriptCreate name content cr cs fbs = .error e → e.isAPIError = true →
      ((cr.status ≠ 200 ∧ cr.status ≠ 201) ∨ cr.oid = none ∨ cr.oid = some 0)) ∧
    ((∃ r, scriptCreate name content cr cs fbs = .ok r ∧ r.success = true) ↔
      ((cr.status = 200 ∨ cr.status = 201) ∧ (∃ oid, cr.oid = some oid ∧ oid ≠ 0) ∧
        uploadOk cs fbs = true)) := by
  refine ⟨?_, ?_, ?_⟩
  · intro hst oid hoid h0 hup
    rw [scriptCreate_ok_shape name content cr cs fbs hn hc hst oid hoid h0, hup]
    simp
  · intro e he hapi
    by_contra hcon
    push_neg at hcon
    obtain ⟨hst0, hnone, hzero⟩ := hcon
    have hst : cr.status = 200 ∨ cr.status = 201 := by tauto
    cases hoid : cr.oid with
    | none => exact hnone hoid
    | some oid =>
      have h0 : oid ≠ 0 := by
        intro h
        exact hzero (by rw [hoid, h])
      rw [scriptCreate_ok_shape name content cr cs fbs hn hc hst oid hoid h0] at he
      by_cases hup : uploadOk cs fbs = true
      · rw [hup] at he
        simp at he
      · rw [Bool.eq_false_iff.mpr hup] at he
        simp at he
  · constructor
    · rintro ⟨r, hr, hsucc⟩
      by_cases hst : cr.status = 200 ∨ cr.status = 201
      · cases hoid : cr.oid with
        | none =>
          rw [scriptCreate_noOid name content cr cs fbs hn hc hst (Or.inl hoid)] at hr
          simp at hr
        | some oid =>
          by_cases h0 : oid = 0
          · rw [h0] at hoid
            rw [scriptCreate_noOid name content cr cs fbs hn hc hst (Or.inr hoid)] at hr
            simp at hr
          · refine ⟨hst, ⟨oid, by simp [hoid], h0⟩, ?_⟩
            rw [scriptCreate_ok_shape name content cr cs fbs hn hc hst oid hoid h0] at hr
            by_cases hup : uploadOk cs fbs = true
            · exact hup
            · rw [Bool.eq_false_iff.mpr hup] at hr
              simp at hr
              rw [← hr] at hsucc
              simp at hsucc
      · rw [scriptCreate_createFailed name content cr cs fbs hn hc hst] at hr
        simp at hr
    · rintro ⟨hst, ⟨oid, hoid, h0⟩, hup⟩
      refine ⟨⟨true, false, false, oid, content.length⟩, ?_, rfl⟩
      rw [scriptCreate_ok_shape name content cr cs fbs hn hc hst oid hoid h0, hup]
      simp

/-- C9 witness: metadata created (201, oid 7) but the JSON content PUT
returns 500 and both fallbacks fail (one raises, one gets 403): the call
returns the partial-success dictionary. -/
theorem C9_witness :
    scriptCreate "n" "c" ⟨201, some 7, ""⟩ 500 [none, some 403]
      = .ok ⟨false, true, true, 7, 0⟩ :=
  (C9_script_create_semantics "n" "c" ⟨201, some 7, ""⟩ 500 [none, some 403]
      (by decide) (by decide)).1 (Or.inr rfl) 7 rfl (by decide) (by decide)

/-- C10 counterexample: the claim states that any supplied provision_target
outside the valid set raises `ValueError` before any HTTP request.  An
empty-string target is supplied and not in the valid set, yet the truthiness
guard skips validation: no `ValueError` is raised, the PUT is issued (one
request), it omits the provisionTarget key, and the call succeeds. -/
theorem C10_counterexample :
    deviceProvision
        ⟨"SN1", "FortiGate", "provisioned", some "", none, none, none, none, none, none, none⟩
        ⟨200, ""⟩
      = (.ok ⟨true, "SN1", "FortiGate", "provisioned", some ""⟩, 1) ∧
    ("" ∈ validProvisionTargets → False) ∧
    lookupJ (provisionPayload
        ⟨"SN1", "FortiGate", "provisioned", some "", none, none, none, none, none, none, none⟩)
      "provisionTarget" = none := by
  refine ⟨by decide, by decide, rfl⟩

/-- C10 (amended): an invalid device_type, an invalid provision_status, or
a supplied nonempty provision_target outside the valid set raises
`ValueError` before any HTTP request is issued (zero requests, so no state
changes); an empty-string provision_target is treated as absent. -/
theorem C10_provision_validation (a : ProvisionArgs) (resp : HResp)
    (hbad : a.deviceType ∉ validDeviceTypes ∨
      (a.provisionStatus ≠ "provisioned" ∧ a.provisionStatus ≠ "unprovisioned") ∨
      suppliedInvalidTarget a.provisionTarget = true) :
    (∃ p, (deviceProvision a resp).1 = .error (.valueError p)) ∧
    (deviceProvision a resp).2 = 0 := by
  by_cases h1 : a.deviceType ∈ validDeviceTypes
  · by_cases h2 : a.provisionStatus ≠ "provisioned" ∧ a.provisionStatus ≠ "unprovisioned"
    · exact ⟨⟨"provision_status", by simp [deviceProvision, h1, h2]⟩,
        by simp [deviceProvision, h1, h2]⟩
    · have h3 : suppliedInvalidTarget a.provisionTarget = true := by tauto
      exact ⟨⟨"provision_target", by simp [deviceProvision, h1, h2, h3]⟩,
        by simp [deviceProvision, h1, h2, h3]⟩
  · exact ⟨⟨"device_type", by simp [deviceProvision, h1]⟩, by simp [deviceProvision, h1]⟩

/-- C10 witness: an invalid device type raises `ValueError` with zero HTTP
requests issued. -/
theorem C10_witness :
    (∃ p, (deviceProvision
        ⟨"SN1", "Router", "provisioned", none, none, none, none, none, none, none, none⟩
        ⟨200, ""⟩).1 = .error (.valueError p)) ∧
    (deviceProvision
        ⟨"SN1", "Router", "provisioned", none, none, none, none, none, none, none, none⟩
        ⟨200, ""⟩).2 = 0 :=
  C10_provision_validation
    ⟨"SN1", "Router", "provisioned", none, none, none, none, none, none, none, none⟩
    ⟨200, ""⟩ (Or.inl (by decide))

end Fortinet
